import Mathlib

/-!
Verification development for the FastDCS logging facility
(src/src/base/logging.h).  The header declares the public surface: the
`LogSeverity` enumeration, the `Logger` class with its static
`GetStream`, `Start` and `TruncateLogFile` members, the process-wide
`InitializeLogger` entry point with a defaulted `log_max_size`
argument, and the `LOG(severity)` macro.  The bodies of the member
functions live in a logging.cc translation unit that is not part of
the sources; where a definition below depends on such a body it is
modelled from the specification (and from the header's own
documentation comments), and its doc comment says so.

The I/O model: each destination stream carries a list of durable
items (already flushed to the operating system) and a list of
buffered items (written but not yet flushed).  A write appends to the
buffer; a flush moves the whole buffer to the durable list.  A trace
of such events models what one or several logging statements do to
the process-wide streams.
-/

namespace FastDCS

/-- The severity enumeration, from `enum LogSeverity { INFO, WARNING, ERROR, FATAL }`
in logging.h. -/
inductive LogSeverity
  | INFO
  | WARNING
  | ERROR
  | FATAL
deriving DecidableEq, Repr

/-- The four possible destination streams: the three log files backed by the
static `std::ofstream` members of `Logger`, and the shared `std::cerr`
fallback. -/
inductive StreamId
  | infoFile
  | warnFile
  | erroFile
  | stderrStream
deriving DecidableEq, Repr

/-- Which of the three static `std::ofstream` members of `Logger` are open.
An `std::ofstream` that was never opened, or whose open failed, reports not
`is_open`, which is what drives the stderr fallback. -/
structure LoggerConfig where
  infoOpened : Bool
  warnOpened : Bool
  erroOpened : Bool
deriving DecidableEq, Repr

/-- Before any call to `InitializeLogger`, the static `std::ofstream` members
are default-constructed, hence none of the three files is open. -/
def uninitializedConfig : LoggerConfig := ⟨false, false, false⟩

namespace Logger

/-- Modelled from the spec: the body of `Logger::GetStream` is in the missing
logging.cc.  The spec: "selects the destination stream for the given severity
(INFO→info destination, WARNING→warn destination, ERROR and FATAL→error
destination)", and "For each path that fails to open [...] that destination
silently falls back to the shared standard-error stream"; the header comment
likewise says all messages go to stderr when the files could not be opened. -/
def GetStream (cfg : LoggerConfig) : LogSeverity → StreamId
  | .INFO => if cfg.infoOpened then .infoFile else .stderrStream
  | .WARNING => if cfg.warnOpened then .warnFile else .stderrStream
  | .ERROR => if cfg.erroOpened then .erroFile else .stderrStream
  | .FATAL => if cfg.erroOpened then .erroFile else .stderrStream

end Logger

/-- The head record written by `Logger::Start`: severity tag, source location
(file, line, function) and a timestamp.  The timestamp is supplied by the
environment (the wall clock) as a parameter of the model. -/
structure HeadRecord where
  severity : LogSeverity
  srcFile : String
  srcLine : Nat
  srcFunc : String
  timestamp : Nat
deriving DecidableEq, Repr

/-- One item appearing in a destination stream: a head record written by
`Logger::Start`, or a piece of message body inserted by the caller. -/
inductive OutItem
  | head (h : HeadRecord)
  | body (text : String)
deriving DecidableEq, Repr

/-- One stream-level I/O event. -/
inductive Event
  | writeItem (sid : StreamId) (it : OutItem)
  | flushStream (sid : StreamId)
deriving DecidableEq, Repr

/-- The contents of one destination stream, split into the part already
flushed (durable even if the process crashes now) and the part still
buffered. -/
structure StreamBuf where
  durable : List OutItem
  buffered : List OutItem
deriving DecidableEq, Repr

/-- A write appends to the buffered part. -/
def StreamBuf.write (b : StreamBuf) (it : OutItem) : StreamBuf :=
  { b with buffered := b.buffered ++ [it] }

/-- A flush moves everything buffered to the durable part. -/
def StreamBuf.flush (b : StreamBuf) : StreamBuf :=
  ⟨b.durable ++ b.buffered, []⟩

/-- The process-wide state of the four destination streams. -/
structure LogState where
  infoBuf : StreamBuf
  warnBuf : StreamBuf
  erroBuf : StreamBuf
  stderrBuf : StreamBuf
deriving DecidableEq, Repr

/-- The state in which nothing has been written anywhere. -/
def emptyLogState : LogState := ⟨⟨[], []⟩, ⟨[], []⟩, ⟨[], []⟩, ⟨[], []⟩⟩

def LogState.get (st : LogState) : StreamId → StreamBuf
  | .infoFile => st.infoBuf
  | .warnFile => st.warnBuf
  | .erroFile => st.erroBuf
  | .stderrStream => st.stderrBuf

def LogState.set (st : LogState) : StreamId → StreamBuf → LogState
  | .infoFile, b => { st with infoBuf := b }
  | .warnFile, b => { st with warnBuf := b }
  | .erroFile, b => { st with erroBuf := b }
  | .stderrStream, b => { st with stderrBuf := b }

def applyEvent (st : LogState) : Event → LogState
  | .writeItem sid it => st.set sid ((st.get sid).write it)
  | .flushStream sid => st.set sid ((st.get sid).flush)

def applyTrace (st : LogState) (es : List Event) : LogState :=
  es.foldl applyEvent st

namespace Logger

/-- Modelled from the spec: the event trace of `Logger::Start` (its body is in
the missing logging.cc).  The spec: Start "writes a fixed-format head record
containing severity tag, abbreviated source location (file, line, function),
and a timestamp, immediately flushes the underlying destination"; the header
comment confirms Start "outputs a message head into the stream and flush". -/
def startTrace (cfg : LoggerConfig) (s : LogSeverity) (srcFile : String)
    (srcLine : Nat) (srcFunc : String) (ts : Nat) : List Event :=
  let sid := GetStream cfg s
  [Event.writeItem sid (OutItem.head ⟨s, srcFile, srcLine, srcFunc, ts⟩),
   Event.flushStream sid]

/-- Modelled from the spec: `Logger::Start` returns a reference to the chosen
stream after emitting its trace; modelled as the stream id together with the
updated process state. -/
def Start (cfg : LoggerConfig) (st : LogState) (s : LogSeverity)
    (srcFile : String) (srcLine : Nat) (srcFunc : String) (ts : Nat) :
    StreamId × LogState :=
  (GetStream cfg s, applyTrace st (startTrace cfg s srcFile srcLine srcFunc ts))

/-- What a finished logging statement leaves the process doing: either control
returns to the caller, or the process dies on a crash signal (the deliberate
segmentation fault of the FATAL path). -/
inductive Outcome
  | returns
  | crashSignal
deriving DecidableEq, Repr

/-- Modelled from the spec: the destructor flushes the destination stream once
more (the header comment: "the destructor appends flush"). -/
def destructorTrace (cfg : LoggerConfig) (s : LogSeverity) : List Event :=
  [Event.flushStream (GetStream cfg s)]

/-- Modelled from the spec: "If severity is FATAL, the destructor causes
SEGFAULT and core dump" (header comment); otherwise control returns. -/
def destructorOutcome : LogSeverity → Outcome
  | .FATAL => .crashSignal
  | _ => .returns

/-- Modelled from the spec: `~Logger` — flush the destination stream, then
crash the process when the recorded severity is FATAL, else return. -/
def destruct (cfg : LoggerConfig) (s : LogSeverity) (st : LogState) :
    LogState × Outcome :=
  (applyTrace st (destructorTrace cfg s), destructorOutcome s)

end Logger

/-- Modelled from the spec: the event trace of one complete logging statement
`LOG(severity) << body...` — the `Logger` temporary is created, `Start` emits
the head and flushes, the caller's insertions append the body parts, and at
the end of the full statement the destructor flushes again (spec: the
instance is "destroyed at end of the enclosing expression/statement — this
destruction is the trigger for finalization"). -/
def logCallTrace (cfg : LoggerConfig) (s : LogSeverity) (srcFile : String)
    (srcLine : Nat) (srcFunc : String) (ts : Nat) (bodyParts : List String) :
    List Event :=
  Logger.startTrace cfg s srcFile srcLine srcFunc ts
    ++ bodyParts.map (fun p => Event.writeItem (Logger.GetStream cfg s) (OutItem.body p))
    ++ Logger.destructorTrace cfg s

/-- Modelled from the spec: one complete logging statement — final process
state and whether control returns or the process crashes. -/
def logCall (cfg : LoggerConfig) (st : LogState) (s : LogSeverity)
    (srcFile : String) (srcLine : Nat) (srcFunc : String) (ts : Nat)
    (bodyParts : List String) : LogState × Logger.Outcome :=
  (applyTrace st (logCallTrace cfg s srcFile srcLine srcFunc ts bodyParts),
   Logger.destructorOutcome s)

def isHeadWrite : Event → Bool
  | .writeItem _ (.head _) => true
  | _ => false

def isFlush : Event → Bool
  | .flushStream _ => true
  | _ => false

/-- Number of head records written by a trace. -/
def countHeads (es : List Event) : Nat := es.countP isHeadWrite

/-- Number of stream flushes performed by a trace. -/
def countFlushes (es : List Event) : Nat := es.countP isFlush

/-- Outcome of the three `ofstream::open` attempts of `InitializeLogger`,
supplied by the environment (file system). -/
structure OpenResults where
  infoOk : Bool
  warnOk : Bool
  erroOk : Bool
deriving DecidableEq, Repr

/-- The sizes of the three log files on disk. -/
structure FileSizes where
  infoSize : Nat
  warnSize : Nat
  erroSize : Nat
deriving DecidableEq, Repr

/-- The default of the `log_max_size` argument of `InitializeLogger`, from
logging.h: `int64_t log_max_size = 10 * 1024 * 1024`. -/
def defaultLogMaxSize : Nat := 10 * 1024 * 1024

/-- Modelled from the spec: `Logger::TruncateLogFile` (body in the missing
logging.cc) — "if the destination file's current size exceeds the configured
maximum, the file is truncated (reset to empty) before further writes".
Modelled as the resulting size of a file of the given size. -/
def Logger.TruncateLogFile (logMaxSize : Nat) (fileSize : Nat) : Nat :=
  if fileSize > logMaxSize then 0 else fileSize

/-- Modelled from the spec: `InitializeLogger` (body in the missing
logging.cc) — attempts to open the three files, records which opened, and
applies the truncation policy to each destination.  It is a total function:
open failures produce a configuration that falls back to stderr, never an
error to the caller. -/
def InitializeLogger (logMaxSize : Nat) (r : OpenResults) (fs : FileSizes) :
    LoggerConfig × FileSizes :=
  (⟨r.infoOk, r.warnOk, r.erroOk⟩,
   ⟨Logger.TruncateLogFile logMaxSize fs.infoSize,
    Logger.TruncateLogFile logMaxSize fs.warnSize,
    Logger.TruncateLogFile logMaxSize fs.erroSize⟩)

/-- `InitializeLogger` invoked without an explicit `log_max_size` argument:
the header's default argument is substituted. -/
def InitializeLoggerDefault (r : OpenResults) (fs : FileSizes) :
    LoggerConfig × FileSizes :=
  InitializeLogger defaultLogMaxSize r fs

/-- The process-wide configuration the spec says is established once: the
three file paths, the size limit, and the stream routing (open flags). -/
structure FullConfig where
  infoPath : String
  warnPath : String
  erroPath : String
  logMaxSize : Nat
  streams : LoggerConfig
deriving DecidableEq, Repr

/-- An operation of the process that touches the logging subsystem: an
initialization call, or a logging statement. -/
inductive ProcOp
  | opInit (infoPath warnPath erroPath : String) (logMaxSize : Nat) (r : OpenResults)
  | opLog (s : LogSeverity) (bodyParts : List String)
deriving DecidableEq, Repr

/-- Modelled from the spec: the effect of one operation on the process-wide
configuration — "process-wide, call-once-semantics operation [...] remains
fixed for the remainder of the process".  The first initialization call
establishes the configuration; later operations leave it unchanged. -/
def stepConfig : Option FullConfig → ProcOp → Option FullConfig
  | none, .opInit ip wp ep m r => some ⟨ip, wp, ep, m, ⟨r.infoOk, r.warnOk, r.erroOk⟩⟩
  | some c, .opInit _ _ _ _ _ => some c
  | c, .opLog _ _ => c

/-- The configuration after a sequence of operations. -/
def runConfig (c0 : Option FullConfig) (ops : List ProcOp) : Option FullConfig :=
  ops.foldl stepConfig c0

/-- The per-call `Logger` temporary, recording one severity, from
`Logger(LogSeverity s) : severity_(s)` in logging.h. -/
structure LoggerInst where
  severity_ : LogSeverity
deriving DecidableEq, Repr

/-- The expansion of the `LOG(severity)` macro from logging.h:
`Logger(severity).Start(severity, __FILE__, __LINE__, __FUNCTION__)`.
The macro substitutes the severity argument textually twice, so the
expression is evaluated once for the constructor and once as the first
argument of `Start`.  The severity expression is modelled as a state
transformer to make its side effects visible; the result is the constructed
instance, the severity value passed to `Start`, and the final state. -/
def LOG {σ : Type} (sevExpr : σ → LogSeverity × σ) (st : σ) :
    (LoggerInst × LogSeverity) × σ :=
  let a := sevExpr st
  let b := sevExpr a.2
  ((LoggerInst.mk a.1, b.1), b.2)

/-- A severity expression with a side effect: it increments a counter, and
yields INFO on the first evaluation but WARNING on every later one. -/
def steppingSeverity (n : Nat) : LogSeverity × Nat :=
  (if n = 0 then .INFO else .WARNING, n + 1)

/-! ## Helper lemmas on the stream-state model -/

theorem LogState.get_set_same (st : LogState) (sid : StreamId) (b : StreamBuf) :
    (st.set sid b).get sid = b := by
  cases sid <;> rfl

theorem LogState.set_set (st : LogState) (sid : StreamId) (a b : StreamBuf) :
    (st.set sid a).set sid b = st.set sid b := by
  cases sid <;> rfl

theorem LogState.set_get (st : LogState) (sid : StreamId) :
    st.set sid (st.get sid) = st := by
  cases sid <;> rfl

theorem applyTrace_append (st : LogState) (es fs : List Event) :
    applyTrace st (es ++ fs) = applyTrace (applyTrace st es) fs := by
  simp [applyTrace, List.foldl_append]

theorem applyTrace_body (sid : StreamId) (ps : List String) (st : LogState) :
    applyTrace st (ps.map fun p => Event.writeItem sid (OutItem.body p)) =
      st.set sid ⟨(st.get sid).durable, (st.get sid).buffered ++ ps.map OutItem.body⟩ := by
  induction ps generalizing st with
  | nil =>
      simp only [List.map_nil, applyTrace, List.foldl_nil, List.append_nil]
      exact (LogState.set_get st sid).symm
  | cons p ps ih =>
      simp only [List.map_cons, applyTrace, List.foldl_cons, applyEvent]
      rw [show List.foldl applyEvent (st.set sid ((st.get sid).write (OutItem.body p)))
            (ps.map fun q => Event.writeItem sid (OutItem.body q)) =
          applyTrace (st.set sid ((st.get sid).write (OutItem.body p)))
            (ps.map fun q => Event.writeItem sid (OutItem.body q)) from rfl]
      rw [ih]
      simp [LogState.get_set_same, LogState.set_set, StreamBuf.write, List.append_assoc]

theorem Start_state (cfg : LoggerConfig) (st : LogState) (s : LogSeverity)
    (f : String) (l : Nat) (fn : String) (ts : Nat) :
    Logger.Start cfg st s f l fn ts =
      (Logger.GetStream cfg s,
       st.set (Logger.GetStream cfg s)
         ⟨(st.get (Logger.GetStream cfg s)).durable ++
            (st.get (Logger.GetStream cfg s)).buffered ++
            [OutItem.head ⟨s, f, l, fn, ts⟩], []⟩) := by
  simp [Logger.Start, Logger.startTrace, applyTrace, applyEvent,
    LogState.get_set_same, LogState.set_set, StreamBuf.write, StreamBuf.flush,
    List.append_assoc]

theorem logCall_state (cfg : LoggerConfig) (st : LogState) (s : LogSeverity)
    (f : String) (l : Nat) (fn : String) (ts : Nat) (ps : List String) :
    (logCall cfg st s f l fn ts ps).1 =
      st.set (Logger.GetStream cfg s)
        ⟨(st.get (Logger.GetStream cfg s)).durable ++
           (st.get (Logger.GetStream cfg s)).buffered ++
           (OutItem.head ⟨s, f, l, fn, ts⟩ :: ps.map OutItem.body), []⟩ := by
  unfold logCall logCallTrace
  rw [applyTrace_append, applyTrace_append]
  rw [show applyTrace st (Logger.startTrace cfg s f l fn ts) =
        (Logger.Start cfg st s f l fn ts).2 from rfl]
  rw [Start_state]
  rw [applyTrace_body]
  simp [Logger.destructorTrace, applyTrace, applyEvent,
    LogState.get_set_same, LogState.set_set, StreamBuf.flush, List.append_assoc]

theorem stepConfig_some (c : FullConfig) (op : ProcOp) :
    stepConfig (some c) op = some c := by
  cases op <;> rfl

theorem runConfig_some (c : FullConfig) (ops : List ProcOp) :
    runConfig (some c) ops = some c := by
  induction ops with
  | nil => rfl
  | cons op ops ih =>
      rw [runConfig, List.foldl_cons, stepConfig_some]
      exact ih

/-! ## The claims -/

/-- C1: the stream selected for a message is determined solely by its
severity: INFO goes to the info destination, WARNING to the warn
destination, and both ERROR and FATAL to the error destination, whenever the
corresponding file was opened successfully at initialization. -/
theorem GetStream_routes_by_severity (cfg : LoggerConfig) :
    (cfg.infoOpened = true → Logger.GetStream cfg .INFO = .infoFile) ∧
    (cfg.warnOpened = true → Logger.GetStream cfg .WARNING = .warnFile) ∧
    (cfg.erroOpened = true → Logger.GetStream cfg .ERROR = .erroFile) ∧
    (cfg.erroOpened = true → Logger.GetStream cfg .FATAL = .erroFile) ∧
    Logger.GetStream cfg .ERROR = Logger.GetStream cfg .FATAL := by
  refine ⟨fun h => ?_, fun h => ?_, fun h => ?_, fun h => ?_, rfl⟩ <;>
    simp [Logger.GetStream, h]

/-- Witness for C1: with all three files open, each severity lands on its
documented destination. -/
theorem GetStream_routes_by_severity_witness :
    Logger.GetStream ⟨true, true, true⟩ .INFO = .infoFile ∧
    Logger.GetStream ⟨true, true, true⟩ .WARNING = .warnFile ∧
    Logger.GetStream ⟨true, true, true⟩ .ERROR = .erroFile ∧
    Logger.GetStream ⟨true, true, true⟩ .FATAL = .erroFile :=
  ⟨(GetStream_routes_by_severity ⟨true, true, true⟩).1 rfl,
   (GetStream_routes_by_severity ⟨true, true, true⟩).2.1 rfl,
   (GetStream_routes_by_severity ⟨true, true, true⟩).2.2.1 rfl,
   (GetStream_routes_by_severity ⟨true, true, true⟩).2.2.2.1 rfl⟩

/-- C2: destruction of a Logger flushes the destination stream (everything
buffered becomes durable, the buffer ends empty), and the outcome is a crash
signal exactly when the recorded severity is FATAL; for every other severity
control returns to the caller. -/
theorem destructor_flushes_then_fatal_crashes (cfg : LoggerConfig)
    (s : LogSeverity) (st : LogState) :
    ((Logger.destruct cfg s st).1.get (Logger.GetStream cfg s)).durable =
      (st.get (Logger.GetStream cfg s)).durable ++
        (st.get (Logger.GetStream cfg s)).buffered ∧
    ((Logger.destruct cfg s st).1.get (Logger.GetStream cfg s)).buffered = [] ∧
    ((Logger.destruct cfg s st).2 = Logger.Outcome.crashSignal ↔ s = .FATAL) ∧
    ((Logger.destruct cfg s st).2 = Logger.Outcome.returns ↔ s ≠ .FATAL) := by
  refine ⟨?_, ?_, ?_, ?_⟩
  · simp [Logger.destruct, Logger.destructorTrace, applyTrace, applyEvent,
      LogState.get_set_same, StreamBuf.flush]
  · simp [Logger.destruct, Logger.destructorTrace, applyTrace, applyEvent,
      LogState.get_set_same, StreamBuf.flush]
  · cases s <;> simp [Logger.destruct, Logger.destructorOutcome]
  · cases s <;> simp [Logger.destruct, Logger.destructorOutcome]

/-- C3: without initialization every severity routes to the stderr fallback;
after an initialization in which exactly one category's file failed to open,
only that category falls back to stderr while the other categories route to
their files; initialization is a total function of its inputs (no error is
ever raised to the caller). -/
theorem uninitialized_and_partial_failure_fallback :
    (∀ s : LogSeverity, Logger.GetStream uninitializedConfig s = .stderrStream) ∧
    (∀ (m : Nat) (fs : FileSizes),
      (Logger.GetStream (InitializeLogger m ⟨false, true, true⟩ fs).1 .INFO = .stderrStream ∧
       Logger.GetStream (InitializeLogger m ⟨false, true, true⟩ fs).1 .WARNING = .warnFile ∧
       Logger.GetStream (InitializeLogger m ⟨false, true, true⟩ fs).1 .ERROR = .erroFile ∧
       Logger.GetStream (InitializeLogger m ⟨false, true, true⟩ fs).1 .FATAL = .erroFile) ∧
      (Logger.GetStream (InitializeLogger m ⟨true, false, true⟩ fs).1 .INFO = .infoFile ∧
       Logger.GetStream (InitializeLogger m ⟨true, false, true⟩ fs).1 .WARNING = .stderrStream ∧
       Logger.GetStream (InitializeLogger m ⟨true, false, true⟩ fs).1 .ERROR = .erroFile ∧
       Logger.GetStream (InitializeLogger m ⟨true, false, true⟩ fs).1 .FATAL = .erroFile) ∧
      (Logger.GetStream (InitializeLogger m ⟨true, true, false⟩ fs).1 .INFO = .infoFile ∧
       Logger.GetStream (InitializeLogger m ⟨true, true, false⟩ fs).1 .WARNING = .warnFile ∧
       Logger.GetStream (InitializeLogger m ⟨true, true, false⟩ fs).1 .ERROR = .stderrStream ∧
       Logger.GetStream (InitializeLogger m ⟨true, true, false⟩ fs).1 .FATAL = .stderrStream)) := by
  constructor
  · intro s
    cases s <;> rfl
  · intro m fs
    exact ⟨⟨rfl, rfl, rfl, rfl⟩, ⟨rfl, rfl, rfl, rfl⟩, ⟨rfl, rfl, rfl, rfl⟩⟩

/-- C4: `Logger::Start` returns the stream chosen for the severity, writes one
head record carrying exactly the severity tag, source file, line, function
and timestamp, and flushes before returning: when Start returns, the head
record is already in the durable part of the stream (so it survives a crash
that happens before the instance is destroyed) and nothing is left buffered. -/
theorem Start_writes_durable_head_and_returns_stream (cfg : LoggerConfig)
    (st : LogState) (s : LogSeverity) (f : String) (l : Nat) (fn : String)
    (ts : Nat) :
    (Logger.Start cfg st s f l fn ts).1 = Logger.GetStream cfg s ∧
    ((Logger.Start cfg st s f l fn ts).2.get (Logger.GetStream cfg s)).durable =
      (st.get (Logger.GetStream cfg s)).durable ++
        (st.get (Logger.GetStream cfg s)).buffered ++
        [OutItem.head ⟨s, f, l, fn, ts⟩] ∧
    OutItem.head ⟨s, f, l, fn, ts⟩ ∈
      ((Logger.Start cfg st s f l fn ts).2.get (Logger.GetStream cfg s)).durable ∧
    ((Logger.Start cfg st s f l fn ts).2.get (Logger.GetStream cfg s)).buffered = [] := by
  rw [Start_state]
  refine ⟨rfl, ?_, ?_, ?_⟩
  · simp [LogState.get_set_same]
  · simp [LogState.get_set_same]
  · simp [LogState.get_set_same]

/-- Counterexample to C5 as stated: one complete INFO logging call performs
two flushes of the destination stream (one in `Start` after the head, one in
the destructor), not exactly one. -/
theorem logCall_exactly_one_flush_counterexample :
    countHeads (logCallTrace ⟨true, true, true⟩ .INFO "main.cc" 10 "main" 0 ["message"]) = 1 ∧
    countFlushes (logCallTrace ⟨true, true, true⟩ .INFO "main.cc" 10 "main" 0 ["message"]) ≠ 1 := by
  constructor
  · rfl
  · decide

/-- C5 amended: one complete logging call produces exactly one head record and
exactly TWO flushes of the destination stream (one in `Start` immediately
after the head, one at destruction), and the message body appears in the
stream immediately after that head record and before any output of any
subsequent log call on the same destination. -/
theorem logCall_one_head_two_flushes_ordered (cfg : LoggerConfig)
    (st : LogState) (s1 s2 : LogSeverity) (f1 f2 : String) (l1 l2 : Nat)
    (fn1 fn2 : String) (ts1 ts2 : Nat) (ps1 ps2 : List String)
    (hsame : Logger.GetStream cfg s1 = Logger.GetStream cfg s2) :
    countHeads (logCallTrace cfg s1 f1 l1 fn1 ts1 ps1) = 1 ∧
    countFlushes (logCallTrace cfg s1 f1 l1 fn1 ts1 ps1) = 2 ∧
    ((applyTrace st (logCallTrace cfg s1 f1 l1 fn1 ts1 ps1 ++
        logCallTrace cfg s2 f2 l2 fn2 ts2 ps2)).get
        (Logger.GetStream cfg s1)).durable =
      (st.get (Logger.GetStream cfg s1)).durable ++
        (st.get (Logger.GetStream cfg s1)).buffered ++
        (OutItem.head ⟨s1, f1, l1, fn1, ts1⟩ :: ps1.map OutItem.body) ++
        (OutItem.head ⟨s2, f2, l2, fn2, ts2⟩ :: ps2.map OutItem.body) := by
  refine ⟨?_, ?_, ?_⟩
  · simp [countHeads, logCallTrace, Logger.startTrace, Logger.destructorTrace,
      List.countP_append, List.countP_map, List.countP_cons, isHeadWrite,
      Function.comp]
  · simp [countFlushes, logCallTrace, Logger.startTrace, Logger.destructorTrace,
      List.countP_append, List.countP_map, List.countP_cons, isFlush,
      Function.comp]
  · rw [applyTrace_append]
    rw [show applyTrace st (logCallTrace cfg s1 f1 l1 fn1 ts1 ps1) =
          (logCall cfg st s1 f1 l1 fn1 ts1 ps1).1 from rfl]
    rw [show applyTrace (logCall cfg st s1 f1 l1 fn1 ts1 ps1).1
          (logCallTrace cfg s2 f2 l2 fn2 ts2 ps2) =
        (logCall cfg (logCall cfg st s1 f1 l1 fn1 ts1 ps1).1 s2 f2 l2 fn2 ts2 ps2).1
          from rfl]
    rw [logCall_state, logCall_state, ← hsame]
    simp [LogState.get_set_same, LogState.set_set, List.append_assoc]

/-- Witness for C5 amended: an ERROR call followed by a FATAL call, both on
the error destination, with all files open. -/
theorem logCall_one_head_two_flushes_ordered_witness :
    countHeads (logCallTrace ⟨true, true, true⟩ .ERROR "a.cc" 1 "f" 5 ["x"]) = 1 ∧
    countFlushes (logCallTrace ⟨true, true, true⟩ .ERROR "a.cc" 1 "f" 5 ["x"]) = 2 ∧
    ((applyTrace emptyLogState (logCallTrace ⟨true, true, true⟩ .ERROR "a.cc" 1 "f" 5 ["x"] ++
        logCallTrace ⟨true, true, true⟩ .FATAL "b.cc" 2 "g" 6 ["y"])).get
        (Logger.GetStream ⟨true, true, true⟩ .ERROR)).durable =
      (emptyLogState.get (Logger.GetStream ⟨true, true, true⟩ .ERROR)).durable ++
        (emptyLogState.get (Logger.GetStream ⟨true, true, true⟩ .ERROR)).buffered ++
        (OutItem.head ⟨.ERROR, "a.cc", 1, "f", 5⟩ :: (["x"].map OutItem.body)) ++
        (OutItem.head ⟨.FATAL, "b.cc", 2, "g", 6⟩ :: (["y"].map OutItem.body)) :=
  logCall_one_head_two_flushes_ordered ⟨true, true, true⟩ emptyLogState
    .ERROR .FATAL "a.cc" "b.cc" 1 2 "f" "g" 5 6 ["x"] ["y"] rfl

/-- C6: the truncation policy applied at initialization resets a file whose
size exceeds the configured maximum to size 0, leaves a file at or below the
maximum unchanged, and initialization applies this policy to each of the
three destinations. -/
theorem TruncateLogFile_policy (m sz : Nat) (r : OpenResults) (fs : FileSizes) :
    (sz > m → Logger.TruncateLogFile m sz = 0) ∧
    (sz ≤ m → Logger.TruncateLogFile m sz = sz) ∧
    (InitializeLogger m r fs).2 =
      ⟨Logger.TruncateLogFile m fs.infoSize, Logger.TruncateLogFile m fs.warnSize,
       Logger.TruncateLogFile m fs.erroSize⟩ := by
  refine ⟨fun h => ?_, fun h => ?_, rfl⟩
  · simp [Logger.TruncateLogFile, h]
  · simp [Logger.TruncateLogFile, Nat.not_lt.mpr h]

/-- Witness for C6: a file of size 7 against a cap of 5 is reset to 0, a file
of size 5 against a cap of 5 is left unchanged. -/
theorem TruncateLogFile_policy_witness :
    Logger.TruncateLogFile 5 7 = 0 ∧ Logger.TruncateLogFile 5 5 = 5 :=
  ⟨(TruncateLogFile_policy 5 7 ⟨true, true, true⟩ ⟨0, 0, 0⟩).1 (by decide),
   (TruncateLogFile_policy 5 5 ⟨true, true, true⟩ ⟨0, 0, 0⟩).2.1 (by decide)⟩

/-- C7: when `InitializeLogger` is called without an explicit maximum-size
argument, the truncation threshold is exactly 10 * 1024 * 1024 = 10485760
bytes: a file one byte over it is truncated to empty, a file exactly at it is
left unchanged. -/
theorem default_log_max_size_is_ten_mebibytes :
    defaultLogMaxSize = 10485760 ∧
    (∀ (r : OpenResults) (fs : FileSizes),
      InitializeLoggerDefault r fs = InitializeLogger 10485760 r fs) ∧
    (InitializeLoggerDefault ⟨true, true, true⟩ ⟨10485761, 10485760, 0⟩).2 =
      ⟨0, 10485760, 0⟩ := by
  refine ⟨rfl, fun r fs => rfl, by decide⟩

/-- C8: the process-wide configuration (paths, size limit, stream routing) is
established by the first initialization call, and once established no later
operation — neither a second initialization call nor any logging call —
changes it. -/
theorem config_fixed_after_first_init (ip wp ep : String) (m : Nat)
    (r : OpenResults) (ops : List ProcOp) (c : FullConfig) :
    runConfig none (ProcOp.opInit ip wp ep m r :: ops) =
      some ⟨ip, wp, ep, m, ⟨r.infoOk, r.warnOk, r.erroOk⟩⟩ ∧
    runConfig (some c) ops = some c := by
  constructor
  · rw [runConfig, List.foldl_cons]
    exact runConfig_some _ ops
  · exact runConfig_some c ops

/-- C9: the `LOG(severity)` macro substitutes its severity argument twice, so
the severity expression is evaluated once for the `Logger` constructor and
once as the argument of `Start`: its side effect happens twice, and with the
side-effecting expression `steppingSeverity` starting at counter 0 the
instance records INFO while WARNING is passed to `Start` — two different
severities that select two different streams. -/
theorem LOG_evaluates_severity_twice :
    (∀ (σ : Type) (e : σ → LogSeverity × σ) (st : σ),
      (LOG e st).2 = (e (e st).2).2) ∧
    LOG steppingSeverity 0 = ((LoggerInst.mk .INFO, .WARNING), 2) ∧
    (LoggerInst.mk LogSeverity.INFO).severity_ ≠ LogSeverity.WARNING ∧
    Logger.GetStream ⟨true, true, true⟩ .INFO ≠
      Logger.GetStream ⟨true, true, true⟩ .WARNING := by
  refine ⟨fun σ e st => rfl, rfl, by decide, by decide⟩

/-- C10: the Logger temporary of a logging statement is destroyed only after
all of the caller's insertions: at finalization time the whole message body
of the statement is already in the stream — the final state has the body as
a durable suffix with nothing left buffered — and the crash outcome (for
FATAL) is produced by that finalization, i.e. together with the state in
which the full body was written; the outcome is a crash exactly for FATAL. -/
theorem finalization_follows_entire_body (cfg : LoggerConfig) (st : LogState)
    (s : LogSeverity) (f : String) (l : Nat) (fn : String) (ts : Nat)
    (ps : List String) :
    ((logCall cfg st s f l fn ts ps).1.get (Logger.GetStream cfg s)).buffered = [] ∧
    (ps.map OutItem.body) <:+
      ((logCall cfg st s f l fn ts ps).1.get (Logger.GetStream cfg s)).durable ∧
    ((logCall cfg st s f l fn ts ps).2 = Logger.Outcome.crashSignal ↔ s = .FATAL) := by
  refine ⟨?_, ?_, ?_⟩
  · rw [logCall_state]
    simp [LogState.get_set_same]
  · rw [logCall_state]
    refine ⟨(st.get (Logger.GetStream cfg s)).durable ++
      (st.get (Logger.GetStream cfg s)).buffered ++
      [OutItem.head ⟨s, f, l, fn, ts⟩], ?_⟩
    simp [LogState.get_set_same, List.append_assoc]
  · cases s <;> simp [logCall, Logger.destructorOutcome]

end FastDCS
